import Mathlib

/-!
Shallow embedding of the ext4 on-disk decoding subsystem of trustelem/go-diskfs
(package `ext4`), together with proofs settling the frozen claims about it.

Modelling conventions:
* byte buffers are `List Nat`, each element a byte value `0..255`;
* the Go fixed-width unsigned arithmetic is `Nat` with explicit `% 2^w` where
  overflow can occur;
* fallible Go functions (returning `(T, error)`) become `Except`-valued
  functions; Go code paths that panic (index out of range) are surfaced as a
  distinguished outcome where a claim depends on them;
* reading a byte beyond the end of a buffer is modelled with a default of `0`
  (`List.getD`); wherever the Go code would instead panic and no claim depends
  on it, this is noted at the definition.
-/

set_option maxRecDepth 20000

namespace Ext4

/-! ## CRC-32C primitive (src/filesystem/ext4/crc32c.go)

the Go `crc32.Update(crc, castagnoliTable, p)` computes `^rawLoop(^crc, p)` where
`rawLoop` is the table-driven loop over the reflected Castagnoli polynomial
0x82F63B78.  The repository defines
`crc32c_update(crc, input) = ^crc32.Update(^crc, tab, input)`, and the two
inversions cancel, so `crc32c_update` is exactly the raw loop with a caller
state as seed.  `crc32.Checksum(data, tab) = crc32.Update(0, tab, data)`
is the raw loop seeded with `0xFFFFFFFF` and inverted at the end. -/

/-- Continuation-style identity on `Nat`, defined by case analysis so that
kernel reduction evaluates the argument to a numeral before substituting it
into the continuation.  Purely an evaluation device for the state-passing
loops below (`forceNat_eq` removes it in proofs); it does not change any
value. -/
def forceNat {α : Type} (n : Nat) (k : Nat → α) : α :=
  match n with
  | 0 => k 0
  | m + 1 => k (m + 1)

/-- One bit-step of the reflected CRC-32C (Castagnoli) computation. -/
def crcBitStep (c : Nat) : Nat :=
  if c % 2 = 1 then (c / 2) ^^^ 0x82F63B78 else c / 2

/-- `n` bit-steps of `crcBitStep`. -/
def crcBits : Nat → Nat → Nat
  | 0, c => c
  | n + 1, c => forceNat (crcBitStep c) (crcBits n)

/-- Entry `i` of the (reflected) Castagnoli CRC-32 table used by the Go
`crc32.MakeTable(crc32.Castagnoli)`. -/
def crc32cTab (i : Nat) : Nat := crcBits 8 i

/-- One byte of the raw (uninverted) CRC-32C table loop. -/
def crc32cStepByte (crc b : Nat) : Nat :=
  crc32cTab ((crc ^^^ b) % 256) ^^^ crc / 256

/-- `crc32c_update(crc, input)` from crc32c.go: as derived above, the
pre- and post-inversions cancel and this is the raw table loop seeded with
`crc`. -/
def crc32c_update : Nat → List Nat → Nat
  | crc, [] => crc
  | crc, b :: rest => forceNat (crc32cStepByte crc b) fun c => crc32c_update c rest

/-- Little-endian 4-byte encoding of a `uint32`. -/
def le32Bytes (n : Nat) : List Nat :=
  [n % 256, n / 256 % 256, n / 65536 % 256, n / 16777216 % 256]

/-- `crc32c_update_u32(crc, n)` from crc32c.go: update with the little-endian
4-byte encoding of `n`. -/
def crc32c_update_u32 (crc n : Nat) : Nat :=
  crc32c_update crc (le32Bytes n)

/-- the Go `crc32.Checksum(data, castagnoliTable)`: the raw loop seeded with
`^0 = 0xFFFFFFFF`, inverted at the end. -/
def goCrc32Checksum (data : List Nat) : Nat :=
  crc32c_update 0xFFFFFFFF data ^^^ 0xFFFFFFFF

/-! ## CRC-16 primitive

Modelled from the spec: the definitions of `crc16_update` and
`crc16_update_u32` used by groupDescriptorChecksum (src/unnamed/part_001) are
not among the source files; the spec (§4.1) says only that it is "a CRC-16
with a fixed table and u32 update helper" with "the same update contract" as
the CRC-32C primitive.  We model it as the reflected table-driven CRC-16 loop
with the common polynomial 0xA001.  No claim depends on its concrete values:
it appears only on the `gdtChecksum` branch of groupDescriptorChecksum, and
claim C6 is confined to the `metadataChecksums` branch. -/

/-- One bit-step of a reflected CRC-16 with polynomial 0xA001. -/
def crc16BitStep (c : Nat) : Nat :=
  if c % 2 = 1 then (c / 2) ^^^ 0xA001 else c / 2

/-- `n` bit-steps of `crc16BitStep`. -/
def crc16Bits : Nat → Nat → Nat
  | 0, c => c
  | n + 1, c => forceNat (crc16BitStep c) (crc16Bits n)

/-- One byte of the raw CRC-16 table loop. -/
def crc16StepByte (crc b : Nat) : Nat :=
  crc16Bits 8 ((crc ^^^ b) % 256) ^^^ crc / 256

/-- Modelled from the spec: `crc16_update(crc, input)`. -/
def crc16_update : Nat → List Nat → Nat
  | crc, [] => crc
  | crc, b :: rest => forceNat (crc16StepByte crc b) fun c => crc16_update c rest

/-- Modelled from the spec: `crc16_update_u32(crc, n)` updates with the
little-endian 4-byte encoding of `n`. -/
def crc16_update_u32 (crc n : Nat) : Nat :=
  crc16_update crc (le32Bytes n)

/-! ## Byte-buffer helpers (Go `binary.LittleEndian` and slicing) -/

/-- Byte `i` of a buffer (0 beyond the end; Go panics there instead, noted at
each use site where it matters). -/
def byteAt (b : List Nat) (i : Nat) : Nat := b.getD i 0

/-- `binary.LittleEndian.Uint16(b[i:i+2])`. -/
def le16 (b : List Nat) (i : Nat) : Nat :=
  byteAt b i + 256 * byteAt b (i + 1)

/-- `binary.LittleEndian.Uint32(b[i:i+4])`. -/
def le32 (b : List Nat) (i : Nat) : Nat :=
  le16 b i + 65536 * le16 b (i + 2)

/-- Go slice `b[lo:hi]`. -/
def sliceBytes (b : List Nat) (lo hi : Nat) : List Nat :=
  (b.take hi).drop lo

/-- Go slice `b[lo:]`. -/
def sliceFrom (b : List Nat) (lo : Nat) : List Nat :=
  b.drop lo

/-! ## Feature flags (src/filesystem/ext4/miscflags.go) -/

/-- `featureFlags` from miscflags.go: which compat / incompat / ro-compat
feature bits are set. -/
structure FeatureFlags where
  directoryPreAllocate : Bool
  imagicInodes : Bool
  hasJournal : Bool
  extendedAttributes : Bool
  reservedGDTBlocksForExpansion : Bool
  directoryIndices : Bool
  lazyBlockGroup : Bool
  excludeInode : Bool
  excludeBitmap : Bool
  sparseSuperBlockV2 : Bool
  compression : Bool
  directoryEntriesRecordFileType : Bool
  recoveryNeeded : Bool
  separateJournalDevice : Bool
  metaBlockGroups : Bool
  extents : Bool
  fs64Bit : Bool
  multipleMountProtection : Bool
  flexBlockGroups : Bool
  extendedAttributeInodes : Bool
  dataInDirectoryEntries : Bool
  metadataChecksumSeedInSuperblock : Bool
  largeDirectory : Bool
  dataInInode : Bool
  encryptInodes : Bool
  sparseSuperblock : Bool
  largeFile : Bool
  btreeDirectory : Bool
  hugeFile : Bool
  gdtChecksum : Bool
  largeSubdirectoryCount : Bool
  largeInodes : Bool
  snapshot : Bool
  quota : Bool
  bigalloc : Bool
  metadataChecksums : Bool
  replicas : Bool
  readOnly : Bool
  projectQuotas : Bool
deriving DecidableEq

/-- `parseFeatureFlags` from miscflags.go. -/
def parseFeatureFlags (compatFlags incompatFlags roCompatFlags : Nat) : FeatureFlags where
  directoryPreAllocate := compatFlags &&& 0x1 == 0x1
  imagicInodes := compatFlags &&& 0x2 == 0x2
  hasJournal := compatFlags &&& 0x4 == 0x4
  extendedAttributes := compatFlags &&& 0x8 == 0x8
  reservedGDTBlocksForExpansion := compatFlags &&& 0x10 == 0x10
  directoryIndices := compatFlags &&& 0x20 == 0x20
  lazyBlockGroup := compatFlags &&& 0x40 == 0x40
  excludeInode := compatFlags &&& 0x80 == 0x80
  excludeBitmap := compatFlags &&& 0x100 == 0x100
  sparseSuperBlockV2 := compatFlags &&& 0x200 == 0x200
  compression := incompatFlags &&& 0x1 == 0x1
  directoryEntriesRecordFileType := incompatFlags &&& 0x2 == 0x2
  recoveryNeeded := incompatFlags &&& 0x4 == 0x4
  separateJournalDevice := incompatFlags &&& 0x8 == 0x8
  metaBlockGroups := incompatFlags &&& 0x10 == 0x10
  extents := incompatFlags &&& 0x40 == 0x40
  fs64Bit := incompatFlags &&& 0x80 == 0x80
  multipleMountProtection := incompatFlags &&& 0x100 == 0x100
  flexBlockGroups := incompatFlags &&& 0x200 == 0x200
  extendedAttributeInodes := incompatFlags &&& 0x400 == 0x400
  dataInDirectoryEntries := incompatFlags &&& 0x1000 == 0x1000
  metadataChecksumSeedInSuperblock := incompatFlags &&& 0x2000 == 0x2000
  largeDirectory := incompatFlags &&& 0x4000 == 0x4000
  dataInInode := incompatFlags &&& 0x8000 == 0x8000
  encryptInodes := incompatFlags &&& 0x10000 == 0x10000
  sparseSuperblock := roCompatFlags &&& 0x1 == 0x1
  largeFile := roCompatFlags &&& 0x2 == 0x2
  btreeDirectory := roCompatFlags &&& 0x4 == 0x4
  hugeFile := roCompatFlags &&& 0x8 == 0x8
  gdtChecksum := roCompatFlags &&& 0x10 == 0x10
  largeSubdirectoryCount := roCompatFlags &&& 0x20 == 0x20
  largeInodes := roCompatFlags &&& 0x40 == 0x40
  snapshot := roCompatFlags &&& 0x80 == 0x80
  quota := roCompatFlags &&& 0x100 == 0x100
  bigalloc := roCompatFlags &&& 0x200 == 0x200
  metadataChecksums := roCompatFlags &&& 0x400 == 0x400
  replicas := roCompatFlags &&& 0x800 == 0x800
  readOnly := roCompatFlags &&& 0x1000 == 0x1000
  projectQuotas := roCompatFlags &&& 0x2000 == 0x2000

/-! ## Superblock (src/filesystem/ext4/superblock.go) -/

/-- Modelled from the spec: the helper `bytesToUUIDBytes` used by
superblockFromBytes is not among the source files; the spec (§9, "Endian mix
in UUID string form") says the first three RFC-4122 groups are byte-swapped
and the last two kept as is.  Its exact shape is irrelevant to every claim
(the only claimed uuid is all-zero, which is swizzle-invariant). -/
def bytesToUUIDBytes (b : List Nat) : List Nat :=
  (sliceBytes b 0 4).reverse ++ (sliceBytes b 4 6).reverse ++
    (sliceBytes b 6 8).reverse ++ sliceFrom b 8

/-- The distinct failure exits of `superblockFromBytes`. -/
inductive SbError where
  | badLength
  | badSignature
  | badChecksumType
  | checksumMismatch
deriving DecidableEq

/-- The fields of the Go `superblock` structure that the claims touch.  The
remaining fields (times, label strings, journal data, error log, counts not
named by any claim) are straightforward fixed-offset decodes of the same kind
and are omitted from the model. -/
structure Superblock where
  inodeCount : Nat
  blockCount : Nat
  firstDataBlock : Nat
  blockSize : Nat
  blocksPerGroup : Nat
  inodesPerGroup : Nat
  inodeSize : Nat
  features : FeatureFlags
  uuid : List Nat
  hashTreeSeed : List Nat
  groupDescriptorSize : Nat
  checksumType : Nat
  checksumSeed : Nat
deriving DecidableEq

/-- `superblockFromBytes` from superblock.go, restricted to the modelled
fields.  The validation pipeline is complete and in source order: length must
be 1024, magic `0xEF53` at 0x38, checksum-type byte at 0x175 must equal 1
(`crc32c`), and when the metadata-checksums ro-compat bit is set the stored
u32 at 0x3FC must equal `crc32.Checksum` of `b[0:0x3FE]` (the source slices
to 0x3FE, not 0x3FC; see the C1 analysis).  The uuid parse
(`uuid.FromBytes`) cannot fail on a 16-byte slice and is modelled as the
byte swizzle alone. -/
def superblockFromBytes (b : List Nat) : Except SbError Superblock :=
  if b.length ≠ 1024 then .error .badLength
  else if le16 b 0x38 ≠ 0xef53 then .error .badSignature
  else
    let features := parseFeatureFlags (le32 b 0x5c) (le32 b 0x60) (le32 b 0x64)
    let blockCount :=
      le32 b 0x4 + (if features.fs64Bit then 4294967296 * le32 b 0x150 else 0)
    let checksumType := byteAt b 0x175
    if checksumType ≠ 1 then .error .badChecksumType
    else
      let checksum := le32 b 0x3fc
      if features.metadataChecksums ∧ goCrc32Checksum (sliceBytes b 0 0x3fe) ≠ checksum then
        .error .checksumMismatch
      else
        .ok {
          inodeCount := le32 b 0
          blockCount := blockCount
          firstDataBlock := le32 b 0x14
          blockSize := 2 ^ (10 + le32 b 0x18)
          blocksPerGroup := le32 b 0x20
          inodesPerGroup := le32 b 0x28
          inodeSize := le16 b 0x58
          features := features
          uuid := bytesToUUIDBytes (sliceBytes b 0x68 0x78)
          hashTreeSeed := [le32 b 0xec, le32 b 0xf0, le32 b 0xf4, le32 b 0xf8]
          -- the source reads the u16 at 0xFD (not 0xFE) for this field
          groupDescriptorSize := le16 b 0xfd
          checksumType := checksumType
          -- read unconditionally from 0x270; no feature-dependent fallback
          checksumSeed := le32 b 0x270
        }

/-! ## Group descriptors (src/unnamed/part_001, group-descriptor part) -/

/-- `groupDescriptor` from the group-descriptor source. -/
structure GroupDescriptor where
  blockGroupNumber : Nat
  blockBitmapLocation : Nat
  inodeBitmapLocation : Nat
  inodeTableLocation : Nat
  freeBlocks : Nat
  freeInodes : Nat
  usedDirectories : Nat
  inodesUninitialized : Bool
  blockBitmapUninitialized : Bool
  inodeTableZeroed : Bool
  snapshotExclusionBitmapLocation : Nat
  blockBitmapChecksum : Nat
  inodeBitmapChecksum : Nat
  unusedInodes : Nat
deriving DecidableEq

/-- `groupDescriptorChecksum(b, sb, blockGroup)`: the CRC-32C chain (seed,
then the group number as little-endian u32, then `b[0:0x1E]`, then two zero
bytes, then `b[0x20:]` when the record extends past the checksum slot)
truncated to 16 bits when the metadata-checksums feature is set; the CRC-16
variant under the gdt-checksum feature; 0 otherwise.  The gdt branch of the source
seeds the CRC-16 with the bytes of `sb.uuid`; in the model that field holds
the swizzled uuid bytes rather than the Go formatted string (no claim touches
the value of this branch). -/
def groupDescriptorChecksum (b : List Nat) (sb : Superblock) (blockGroup : Nat) : Nat :=
  if sb.features.metadataChecksums then
    let c := crc32c_update_u32 sb.checksumSeed blockGroup
    let c := crc32c_update c (sliceBytes b 0 0x1e)
    let c := crc32c_update c [0, 0]
    let c := if 0x20 < b.length then crc32c_update c (sliceFrom b 0x20) else c
    c % 65536
  else if sb.features.gdtChecksum then
    let c := crc16_update 0xFFFF sb.uuid
    let c := crc16_update_u32 c blockGroup
    let c := crc16_update c (sliceBytes b 0 0x1e)
    if sb.features.fs64Bit ∧ 0x20 < b.length then crc16_update c (sliceFrom b 0x20) else c
  else 0

/-- `groupDescriptorFromBytes(b, sb, blockGroupNumber)`: field reconstruction
with 64-bit upper halves when the 64-bit feature is set, and the checksum gate
when either checksum feature is set. -/
def groupDescriptorFromBytes (b : List Nat) (sb : Superblock) (blockGroupNumber : Nat) :
    Except String GroupDescriptor :=
  let hi (n : Nat) : Nat := if sb.features.fs64Bit then n else 0
  if (sb.features.metadataChecksums ∨ sb.features.gdtChecksum) ∧
      le16 b 0x1e ≠ groupDescriptorChecksum b sb blockGroupNumber then
    .error "checksum mismatch"
  else
    .ok {
      blockGroupNumber := blockGroupNumber
      blockBitmapLocation := le32 b 0x0 + 4294967296 * hi (le32 b 0x20)
      inodeBitmapLocation := le32 b 0x4 + 4294967296 * hi (le32 b 0x24)
      inodeTableLocation := le32 b 0x8 + 4294967296 * hi (le32 b 0x28)
      freeBlocks := le16 b 0xc + 65536 * hi (le16 b 0x2c)
      freeInodes := le16 b 0xe + 65536 * hi (le16 b 0x2e)
      usedDirectories := le16 b 0x10 + 65536 * hi (le16 b 0x30)
      inodesUninitialized := le16 b 0x12 &&& 0x1 == 0x1
      blockBitmapUninitialized := le16 b 0x12 &&& 0x2 == 0x2
      inodeTableZeroed := le16 b 0x12 &&& 0x3 == 0x3
      snapshotExclusionBitmapLocation := le32 b 0x14 + 4294967296 * hi (le32 b 0x34)
      blockBitmapChecksum := le16 b 0x18 + 65536 * hi (le16 b 0x38)
      inodeBitmapChecksum := le16 b 0x1a + 65536 * hi (le16 b 0x3a)
      unusedInodes := le16 b 0x1c + 65536 * hi (le16 b 0x32)
    }

/-! ## Extent tree (src/filesystem/ext4/extent.go) -/

/-- `extent`: a contiguous run of blocks. -/
structure Extent where
  fileBlock : Nat
  startingBlock : Nat
  count : Nat
deriving DecidableEq

/-- `extentTreeInternalNode`: an index entry of an internal node. -/
structure ExtentTreeInternalNode where
  eiBlock : Nat
  eiLeaf : Nat
deriving DecidableEq

/-- `extentTree` from the inode source: one decoded node of the tree. -/
structure ExtentTree where
  depth : Nat
  entries : Nat
  max : Nat
  blockNumber : Nat
  fileBlock : Nat
  extents : List Extent
  children : List ExtentTreeInternalNode
deriving DecidableEq

/-- `parseExtentTreeInternalNodes(b, count)` from extent.go. -/
def parseExtentTreeInternalNodes (b : List Nat) (count : Nat) :
    Except String (List ExtentTreeInternalNode) :=
  if b.length < count * 12 then .error "invalid size to parse extent tree internal nodes"
  else
    .ok ((List.range count).map fun i =>
      { eiBlock := le32 b (i * 12)
        eiLeaf := le32 b (i * 12 + 4) + 4294967296 * le16 b (i * 12 + 8) })

/-- `parseExtentTree(b, fileBlock, dataBlock)` from extent.go: length and
magic checks, then leaf extents (depth 0) or internal index entries.  In the
leaf loop, the Go code indexes `b` without a bounds check and panics when
`entries` exceeds the capacity of the slice; the model reads 0 bytes there
instead (no claim depends on that path). -/
def parseExtentTree (b : List Nat) (fileBlock dataBlock : Nat) :
    Except String ExtentTree :=
  if b.length < 24 then .error "cannot parse extent tree, buffer below minimum"
  else if le16 b 0 ≠ 0xf30a then .error "invalid extent tree header signature"
  else
    let entries := le16 b 0x2
    let max := le16 b 0x4
    let depth := le16 b 0x6
    if depth = 0 then
      .ok {
        depth, entries, max, fileBlock, blockNumber := dataBlock
        extents := (List.range entries).map fun i =>
          let start := i * 12 + 12
          { fileBlock := le32 b start
            count := le16 b (start + 4)
            startingBlock := le32 b (start + 8) + 4294967296 * le16 b (start + 6) }
        children := [] }
    else
      match parseExtentTreeInternalNodes (sliceFrom b 12) entries with
      | .error e => .error e
      | .ok children =>
          .ok { depth, entries, max, fileBlock, blockNumber := dataBlock
                extents := [], children }

/-! ## Inode (src/unnamed/part_001, inode part) -/

/-- `inodeFlags` from the inode source. -/
structure InodeFlags where
  secureDeletion : Bool
  preserveForUndeletion : Bool
  compressed : Bool
  synchronous : Bool
  immutable : Bool
  appendOnly : Bool
  noDump : Bool
  noAccessTimeUpdate : Bool
  dirtyCompressed : Bool
  compressedClusters : Bool
  noCompress : Bool
  encryptedInode : Bool
  hashedDirectoryIndexes : Bool
  AFSMagicDirectory : Bool
  alwaysJournal : Bool
  noMergeTail : Bool
  syncDirectoryData : Bool
  topDirectory : Bool
  hugeFile : Bool
  usesExtents : Bool
  extendedAttributes : Bool
  blocksPastEOF : Bool
  snapshot : Bool
  deletingSnapshot : Bool
  completedSnapshotShrink : Bool
  inlineData : Bool
  inheritProject : Bool
deriving DecidableEq

/-- `parseInodeFlags` from the inode source. -/
def parseInodeFlags (flags : Nat) : InodeFlags where
  secureDeletion := flags &&& 0x1 == 0x1
  preserveForUndeletion := flags &&& 0x2 == 0x2
  compressed := flags &&& 0x4 == 0x4
  synchronous := flags &&& 0x8 == 0x8
  immutable := flags &&& 0x10 == 0x10
  appendOnly := flags &&& 0x20 == 0x20
  noDump := flags &&& 0x40 == 0x40
  noAccessTimeUpdate := flags &&& 0x80 == 0x80
  dirtyCompressed := flags &&& 0x100 == 0x100
  compressedClusters := flags &&& 0x200 == 0x200
  noCompress := flags &&& 0x400 == 0x400
  encryptedInode := flags &&& 0x800 == 0x800
  hashedDirectoryIndexes := flags &&& 0x1000 == 0x1000
  AFSMagicDirectory := flags &&& 0x2000 == 0x2000
  alwaysJournal := flags &&& 0x4000 == 0x4000
  noMergeTail := flags &&& 0x8000 == 0x8000
  syncDirectoryData := flags &&& 0x10000 == 0x10000
  topDirectory := flags &&& 0x20000 == 0x20000
  hugeFile := flags &&& 0x40000 == 0x40000
  usesExtents := flags &&& 0x80000 == 0x80000
  extendedAttributes := flags &&& 0x200000 == 0x200000
  blocksPastEOF := flags &&& 0x400000 == 0x400000
  snapshot := flags &&& 0x1000000 == 0x1000000
  deletingSnapshot := flags &&& 0x4000000 == 0x4000000
  completedSnapshotShrink := flags &&& 0x8000000 == 0x8000000
  inlineData := flags &&& 0x10000000 == 0x10000000
  inheritProject := flags &&& 0x20000000 == 0x20000000

/-- `filePermissions` from the inode source. -/
structure FilePermissions where
  read : Bool
  write : Bool
  execute : Bool
deriving DecidableEq

/-- `parseOwnerPermissions(mode)`. -/
def parseOwnerPermissions (mode : Nat) : FilePermissions where
  execute := mode &&& 0x40 == 0x40
  write := mode &&& 0x80 == 0x80
  read := mode &&& 0x100 == 0x100

/-- `parseGroupPermissions(mode)`. -/
def parseGroupPermissions (mode : Nat) : FilePermissions where
  execute := mode &&& 0x8 == 0x8
  write := mode &&& 0x10 == 0x10
  read := mode &&& 0x20 == 0x20

/-- `parseOtherPermissions(mode)`. -/
def parseOtherPermissions (mode : Nat) : FilePermissions where
  execute := mode &&& 0x1 == 0x1
  write := mode &&& 0x2 == 0x2
  read := mode &&& 0x4 == 0x4

/-- `parseFileType(mode)` from the inode source: a switch whose cases are, in
source order, FIFO 0x1000, block device 0x6000, character device 0x2000,
directory 0x4000, regular 0x8000, socket 0xC000, symlink 0xA000; the first
case whose bits are all present in `mode` wins, and the zero value
(`fileTypeUnknown`) remains when none matches. -/
def parseFileType (mode : Nat) : Nat :=
  if mode &&& 0x1000 = 0x1000 then 0x1000
  else if mode &&& 0x6000 = 0x6000 then 0x6000
  else if mode &&& 0x2000 = 0x2000 then 0x2000
  else if mode &&& 0x4000 = 0x4000 then 0x4000
  else if mode &&& 0x8000 = 0x8000 then 0x8000
  else if mode &&& 0xC000 = 0xC000 then 0xC000
  else if mode &&& 0xA000 = 0xA000 then 0xA000
  else 0

/-- `inode` from the inode source (the `sync.Mutex` / extent-cache pair is
runtime state, not decoded data, and is not modelled). -/
structure Inode where
  number : Nat
  mode : Nat
  permissionsOther : FilePermissions
  permissionsGroup : FilePermissions
  permissionsOwner : FilePermissions
  fileType : Nat
  owner : Nat
  group : Nat
  size : Nat
  accessTimeSeconds : Nat
  changeTimeSeconds : Nat
  creationTimeSeconds : Nat
  modificationTimeSeconds : Nat
  accessTimeNanoseconds : Nat
  changeTimeNanoseconds : Nat
  creationTimeNanoseconds : Nat
  modificationTimeNanoseconds : Nat
  deletionTime : Nat
  hardLinks : Nat
  blocks : Nat
  filesystemBlocks : Bool
  flags : InodeFlags
  version : Nat
  nfsFileVersion : Nat
  inodeSize : Nat
  project : Nat
  extentTree : ExtentTree
  cSumSeed : Nat
deriving DecidableEq

/-- `inodeChecksum(b, sb, checksumSeed)` from the inode source: CRC-32C over
the inode bytes with the two checksum slots replaced by zeros; truncated to
16 bits for 128-byte inodes (branching on the inode size of the superblock). -/
def inodeChecksum (b : List Nat) (sb : Superblock) (checksumSeed : Nat) : Nat :=
  let c := crc32c_update checksumSeed (sliceBytes b 0 0x7c)
  let c := crc32c_update c [0, 0]
  let c := crc32c_update c (sliceBytes b 0x7e 0x80)
  if 128 < sb.inodeSize then
    let c := crc32c_update c (sliceBytes b 0x80 0x82)
    let c := crc32c_update c [0, 0]
    crc32c_update c (sliceFrom b 0x84)
  else
    c &&& 0xFFFF

/-- The stored inode checksum: `b[0x7C:0x7E]` little-endian, extended with
`b[0x82:0x84]` as the upper half for large inodes. -/
def inodeStoredChecksum (b : List Nat) : Nat :=
  le16 b 0x7c + 65536 * (if 128 < b.length then le16 b 0x82 else 0)

/-- The per-inode checksum seed: the per-image seed folded with the inode
number and then the generation, each as a little-endian u32. -/
def inodeSeed (sb : Superblock) (number generation : Nat) : Nat :=
  crc32c_update_u32 (crc32c_update_u32 sb.checksumSeed number) generation

/-- `inodeFromBytes(b, sb, number)` from the inode source.  When the
metadata-checksums feature is set and the stored checksum differs from the
recomputed one, the source only prints a warning to stderr (the error return
is commented out) and decoding continues; the model accordingly ignores the
outcome of the comparison.  The only failure exit is the extent-tree parse. -/
def inodeFromBytes (b : List Nat) (sb : Superblock) (number : Nat) :
    Except String Inode :=
  let iGeneration := le32 b 0x64
  let checksumSeed :=
    if sb.features.metadataChecksums then inodeSeed sb number iGeneration else 0
  let mode := le16 b 0x0
  let big := 128 < b.length
  let blocksLow := le32 b 0x1c
  let blocksHigh := le16 b 0x74
  let flags := parseInodeFlags (le32 b 0x20)
  match parseExtentTree (sliceBytes b 0x28 0x64) 0 0 with
  | .error e => .error e
  | .ok extentTree =>
      .ok {
        number := number
        mode := mode
        permissionsGroup := parseGroupPermissions mode
        permissionsOwner := parseOwnerPermissions mode
        permissionsOther := parseOtherPermissions mode
        fileType := parseFileType mode
        owner := le16 b 0x2 + 65536 * le16 b 0x78
        group := le16 b 0x18 + 65536 * le16 b 0x7a
        size := le32 b 0x4 + 4294967296 * le32 b 0x6c
        hardLinks := le16 b 0x1a
        blocks :=
          if ¬sb.features.hugeFile then blocksLow
          else 4294967296 * blocksHigh + blocksLow
        filesystemBlocks := sb.features.hugeFile && flags.hugeFile
        flags := flags
        nfsFileVersion := iGeneration
        version := le32 b 0x24 + 4294967296 * (if big then le32 b 0x98 else 0)
        inodeSize := if big then le16 b 0x80 + 128 else b.length
        deletionTime := le32 b 0x14
        accessTimeSeconds := le32 b 0x8 + 4294967296 * (if big then byteAt b 0x8c &&& 0x3 else 0)
        changeTimeSeconds := le32 b 0xc + 4294967296 * (if big then byteAt b 0x84 &&& 0x3 else 0)
        modificationTimeSeconds := le32 b 0x10 + 4294967296 * (if big then byteAt b 0x88 &&& 0x3 else 0)
        creationTimeSeconds := (if big then le32 b 0x90 else 0) + 4294967296 * (if big then byteAt b 0x94 &&& 0x3 else 0)
        accessTimeNanoseconds := if big then le32 b 0x8c / 4 else 0
        changeTimeNanoseconds := if big then le32 b 0x84 / 4 else 0
        modificationTimeNanoseconds := if big then le32 b 0x88 / 4 else 0
        creationTimeNanoseconds := if big then le32 b 0x94 / 4 else 0
        project := 0
        extentTree := extentTree
        cSumSeed := checksumSeed
      }

/-! ## Directory entries (src/filesystem/ext4/directoryentry.go) -/

/-- `directoryEntry`: inode number, name bytes, file-type code. -/
structure DirectoryEntry where
  inode : Nat
  filename : List Nat
  fileType : Nat
deriving DecidableEq

/-- `filetypeMap` from directoryentry.go: the eight valid file-type codes in
table order (unknown, regular, directory, chardev, blockdev, fifo, socket,
symlink). -/
def filetypeMap : List Nat :=
  [0x0000, 0x8000, 0x4000, 0x2000, 0x6000, 0x1000, 0xC000, 0xA000]

/-- The possible outcomes of `directoryEntryFromBytes`: a decoded entry, a
skipped record (`nil, nil` in Go: free slot or 0xDE htree tombstone), an
error return, or a Go runtime panic (index out of range). -/
inductive DirEntryOutcome where
  | ok (de : DirectoryEntry)
  | skip
  | err (msg : String)
  | indexOutOfRange
deriving DecidableEq

/-- `directoryEntryFromBytes(sb, b)` from directoryentry.go.  The guard on
the file-type byte is `int(ft) > len(filetypeMap)` — `ft > 8`, not `ft ≥ 8` —
so `ft = 8` escapes the guard and the subsequent `filetypeMap[ft]` index is
out of range: that Go panic is surfaced as `indexOutOfRange`.  (The later
`b[0x8 : 0x8+nameLength]` slice can also exceed the record; no claim depends
on it and the model truncates it.) -/
def directoryEntryFromBytes (sb : Superblock) (b : List Nat) : DirEntryOutcome :=
  if b.length < 12 then .err "directory entry below minimum length"
  else
    let inode := le32 b 0x0
    if inode = 0 then .skip
    else if sb.features.directoryEntriesRecordFileType then
      let nameLength := byteAt b 0x6
      let ft := byteAt b 0x7
      if filetypeMap.length < ft then
        if ft = 0xde then .skip else .err "invalid filetype for directory entry"
      else
        match filetypeMap.get? ft with
        | some t => .ok { inode, filename := sliceBytes b 0x8 (0x8 + nameLength), fileType := t }
        | none => .indexOutOfRange
    else
      let nameLength := le16 b 0x6 % 256
      .ok { inode, filename := sliceBytes b 0x8 (0x8 + nameLength), fileType := 0 }

/-! ## Directory-name hash (src/filesystem/ext4/dirhash.go) -/

/-- `ext4HtreeEOF32` from dirhash.go. -/
def ext4HtreeEOF32 : Nat := (1 <<< 31) - 1

/-- `rol32(word, shift)` from dirhash.go (Go masks both shift amounts
with 31). -/
def rol32 (w s : Nat) : Nat :=
  ((w <<< (s % 32)) % 4294967296) ||| (w >>> ((32 - s % 32) % 32))

/-- MD4 selection function `f`. -/
def md4F (x y z : Nat) : Nat := z ^^^ (x &&& (y ^^^ z))

/-- MD4 majority function `g`. -/
def md4G (x y z : Nat) : Nat := ((x &&& y) + ((x ^^^ y) &&& z)) % 4294967296

/-- MD4 parity function `h`. -/
def md4H (x y z : Nat) : Nat := x ^^^ y ^^^ z

/-- `round(f, a, b, c, d, x, s)` from dirhash.go. -/
def md4Round (fn : Nat → Nat → Nat → Nat) (a b c d x s : Nat) : Nat :=
  rol32 ((a + fn b c d + x) % 4294967296) s

/-- The MD4 round constants `k1`, `k2`, `k3` from dirhash.go (the source
writes `k2` and `k3` in octal). -/
def md4K1 : Nat := 0
def md4K2 : Nat := 0x5A827999
def md4K3 : Nat := 0x6ED9EBA1

/-- `halfMD4Transform(buf, in)` from dirhash.go: three rounds of eight
operations over the four-word state. -/
def halfMD4Transform (buf inp : List Nat) : List Nat :=
  let x (i : Nat) : Nat := inp.getD i 0
  forceNat (buf.getD 0 0) fun a =>
  forceNat (buf.getD 1 0) fun b =>
  forceNat (buf.getD 2 0) fun c =>
  forceNat (buf.getD 3 0) fun d =>
  -- round 1
  forceNat (md4Round md4F a b c d (x 0 + md4K1) 3) fun a =>
  forceNat (md4Round md4F d a b c (x 1 + md4K1) 7) fun d =>
  forceNat (md4Round md4F c d a b (x 2 + md4K1) 11) fun c =>
  forceNat (md4Round md4F b c d a (x 3 + md4K1) 19) fun b =>
  forceNat (md4Round md4F a b c d (x 4 + md4K1) 3) fun a =>
  forceNat (md4Round md4F d a b c (x 5 + md4K1) 7) fun d =>
  forceNat (md4Round md4F c d a b (x 6 + md4K1) 11) fun c =>
  forceNat (md4Round md4F b c d a (x 7 + md4K1) 19) fun b =>
  -- round 2
  forceNat (md4Round md4G a b c d (x 1 + md4K2) 3) fun a =>
  forceNat (md4Round md4G d a b c (x 3 + md4K2) 5) fun d =>
  forceNat (md4Round md4G c d a b (x 5 + md4K2) 9) fun c =>
  forceNat (md4Round md4G b c d a (x 7 + md4K2) 13) fun b =>
  forceNat (md4Round md4G a b c d (x 0 + md4K2) 3) fun a =>
  forceNat (md4Round md4G d a b c (x 2 + md4K2) 5) fun d =>
  forceNat (md4Round md4G c d a b (x 4 + md4K2) 9) fun c =>
  forceNat (md4Round md4G b c d a (x 6 + md4K2) 13) fun b =>
  -- round 3
  forceNat (md4Round md4H a b c d (x 3 + md4K3) 3) fun a =>
  forceNat (md4Round md4H d a b c (x 7 + md4K3) 9) fun d =>
  forceNat (md4Round md4H c d a b (x 2 + md4K3) 11) fun c =>
  forceNat (md4Round md4H b c d a (x 6 + md4K3) 15) fun b =>
  forceNat (md4Round md4H a b c d (x 1 + md4K3) 3) fun a =>
  forceNat (md4Round md4H d a b c (x 5 + md4K3) 9) fun d =>
  forceNat (md4Round md4H c d a b (x 0 + md4K3) 11) fun c =>
  forceNat (md4Round md4H b c d a (x 4 + md4K3) 15) fun b =>
  [(buf.getD 0 0 + a) % 4294967296, (buf.getD 1 0 + b) % 4294967296,
   (buf.getD 2 0 + c) % 4294967296, (buf.getD 3 0 + d) % 4294967296]

/-- The 16-round loop of `TEATransform` over state `(sum, b0, b1)`. -/
def teaLoop : Nat → Nat → Nat → Nat → Nat → Nat → Nat → Nat → Nat × Nat
  | 0, _, b0, b1, _, _, _, _ => (b0, b1)
  | n + 1, sum, b0, b1, a, b, c, d =>
      forceNat ((sum + 0x9E3779B9) % 4294967296) fun sum =>
      forceNat ((b0 + ((((b1 <<< 4) % 4294967296 + a) % 4294967296) ^^^
        ((b1 + sum) % 4294967296) ^^^ ((b1 >>> 5) + b) % 4294967296)) % 4294967296) fun b0 =>
      forceNat ((b1 + ((((b0 <<< 4) % 4294967296 + c) % 4294967296) ^^^
        ((b0 + sum) % 4294967296) ^^^ ((b0 >>> 5) + d) % 4294967296)) % 4294967296) fun b1 =>
      teaLoop n sum b0 b1 a b c d

/-- `TEATransform(buf, in)` from dirhash.go. -/
def TEATransform (buf inp : List Nat) : List Nat :=
  let st := teaLoop 16 0 (buf.getD 0 0) (buf.getD 1 0)
    (inp.getD 0 0) (inp.getD 1 0) (inp.getD 2 0) (inp.getD 3 0)
  [(buf.getD 0 0 + st.1) % 4294967296, (buf.getD 1 0 + st.2) % 4294967296,
   buf.getD 2 0, buf.getD 3 0]

/-- One step of the loop of `dxHackHash`: state is `(hash0, hash1)`. -/
def dxHackStep (signed : Bool) (st : Nat × Nat) (ch : Nat) : Nat × Nat :=
  let c : Int := if signed = true ∧ 128 ≤ ch then (ch : Int) - 256 else (ch : Int)
  let cv : Nat := ((c * 7152373) % 4294967296).toNat
  let hash := (st.2 + (st.1 ^^^ cv)) % 4294967296
  let hash := if hash &&& 0x80000000 ≠ 0 then hash - 0x7fffffff else hash
  (hash, st.1)

/-- `dxHackHash(name, signed)` from dirhash.go: the legacy hash, iterating
the name from the end. -/
def dxHackHash (name : List Nat) (signed : Bool) : Nat :=
  let st := name.reverse.foldl (dxHackStep signed) (0x12a3fe2d, 0x37abe8f9)
  (st.1 <<< 1) % 4294967296

/-- `uint32(c)` of a (possibly sign-extended) name byte in `str2hashbuf`. -/
def str2hashbufVal (signed : Bool) (ch : Nat) : Nat :=
  if signed = true ∧ 128 ≤ ch then (((ch : Int) - 256) % 4294967296).toNat else ch

/-- Loop state of `str2hashbuf`. -/
structure S2HState where
  buf : List Nat
  val : Nat
  num : Int
  j : Nat

/-- The per-byte loop of `str2hashbuf` over the (index, byte) pairs of the
clamped message. -/
def str2hashbufCore (signed : Bool) (pad : Nat) : List (Nat × Nat) → S2HState → S2HState
  | [], st => st
  | (i, ch) :: rest, st =>
      let val := (str2hashbufVal signed ch + (st.val <<< 8) % 4294967296) % 4294967296
      if i % 4 = 3 then
        str2hashbufCore signed pad rest ⟨st.buf.set st.j val, pad, st.num - 1, st.j + 1⟩
      else
        str2hashbufCore signed pad rest { st with val := val }

/-- Fill `cnt` successive words from `j` with `pad` (the trailing loop of
`str2hashbuf`). -/
def padFill (pad : Nat) : List Nat → Nat → Nat → List Nat
  | buf, _, 0 => buf
  | buf, j, n + 1 => padFill pad (buf.set j pad) (j + 1) n

/-- `str2hashbuf(msg, num, signed)` from dirhash.go: packs up to `num * 4`
message bytes into words of an 8-word buffer, padding with the
length-derived `pad` word. -/
def str2hashbuf (msg : List Nat) (num : Nat) (signed : Bool) : List Nat :=
  let size0 := msg.length
  let pad0 := (size0 % 4294967296) ||| ((size0 % 4294967296) <<< 8) % 4294967296
  let pad := pad0 ||| (pad0 <<< 16) % 4294967296
  let size := if num * 4 < size0 then num * 4 else size0
  let st := str2hashbufCore signed pad ((msg.take size).enum)
    ⟨List.replicate 8 0, pad, (num : Int), 0⟩
  let num1 := st.num - 1
  let buf1 := if 0 ≤ num1 then st.buf.set st.j st.val else st.buf
  let j1 := if 0 ≤ num1 then st.j + 1 else st.j
  padFill pad buf1 j1 num1.toNat

/-- The half-MD4 chunk loop of `ext4fsDirhash`: one transform per 32 bytes
of the name, each seeing the full remaining suffix (whose length fixes the
pad word). -/
def md4Chunks (signed : Bool) (buf name : List Nat) : List Nat :=
  if h : name = [] then buf
  else md4Chunks signed (halfMD4Transform buf (str2hashbuf name 8 signed)) (name.drop 32)
termination_by name.length
decreasing_by
  simp only [List.length_drop]
  exact Nat.sub_lt (List.length_pos.mpr h) (by omega)

/-- The TEA chunk loop of `ext4fsDirhash`: one transform per 16 bytes. -/
def teaChunks (signed : Bool) (buf name : List Nat) : List Nat :=
  if h : name = [] then buf
  else teaChunks signed (TEATransform buf (str2hashbuf name 4 signed)) (name.drop 16)
termination_by name.length
decreasing_by
  simp only [List.length_drop]
  exact Nat.sub_lt (List.length_pos.mpr h) (by omega)

/-- The element-wise seed initialisation of `ext4fsDirhash`: each zero seed
word keeps the corresponding MD4 IV word.  (Go indexes `buf[i]` and panics
for a seed longer than 4 words; `List.set` ignores such writes, and the
claims constrain the seed length accordingly.) -/
def dirhashSeedInit (seed : List Nat) : List Nat :=
  seed.enum.foldl (fun buf iv => if iv.2 ≠ 0 then buf.set iv.1 iv.2 else buf)
    [0x67452301, 0xefcdab89, 0x98badcfe, 0x10325476]

/-- The final masking of `ext4fsDirhash`: clear the low bit of the hash and
remap the htree sentinel `ext4HtreeEOF32 << 1` to `(ext4HtreeEOF32 - 1) << 1`.
In the source this is written inline after the version switch; the default
(unknown-version) branch returns `(0, 0)` before reaching it. -/
def dirhashFinish (hash minorHash : Nat) : Nat × Nat :=
  let h := hash &&& 0xFFFFFFFE
  (if h = ext4HtreeEOF32 <<< 1 then (ext4HtreeEOF32 - 1) <<< 1 else h, minorHash)

/-- `ext4fsDirhash(name, version, seed)` from dirhash.go. -/
def ext4fsDirhash (name : List Nat) (version : Nat) (seed : List Nat) : Nat × Nat :=
  let buf := dirhashSeedInit seed
  match version with
  | 3 => dirhashFinish (dxHackHash name false) 0
  | 0 => dirhashFinish (dxHackHash name true) 0
  | 4 => let b := md4Chunks false buf name; dirhashFinish (b.getD 1 0) (b.getD 2 0)
  | 1 => let b := md4Chunks true buf name; dirhashFinish (b.getD 1 0) (b.getD 2 0)
  | 5 => let b := teaChunks false buf name; dirhashFinish (b.getD 0 0) (b.getD 1 0)
  | 2 => let b := teaChunks true buf name; dirhashFinish (b.getD 0 0) (b.getD 1 0)
  | _ => (0, 0)

/-! ## File seek (src/filesystem/ext4/file.go) -/

/-- The observable outcome of `File.Seek`: the returned position, the
offset after the call, and whether an error was returned. -/
structure SeekResult where
  ret : Int
  newFileOffset : Int
  isError : Bool
deriving DecidableEq

/-- `File.Seek(offset, whence)` from file.go, over the inode size of the file and
current offset.  `newOffset` starts at 0 and the switch recognises only
`io.SeekStart = 0`, `io.SeekEnd = 2` and `io.SeekCurrent = 1`; any other
whence leaves it 0. -/
def fileSeek (inodeSize : Nat) (cur : Int) (offset : Int) (whence : Nat) : SeekResult :=
  let newOffset : Int :=
    if whence = 0 then offset
    else if whence = 2 then (inodeSize : Int) + offset
    else if whence = 1 then cur + offset
    else 0
  if newOffset < 0 then { ret := cur, newFileOffset := cur, isError := true }
  else { ret := newOffset, newFileOffset := newOffset, isError := false }

/-! ## File reader (src/filesystem/ext4/ext4.go, readFileBytes) -/

/-- One read issued to the device: absolute offset and byte count. -/
structure ReadOp where
  offset : Nat
  count : Nat
deriving DecidableEq

/-- The `count` bytes of the device starting at `off` (the device is modelled
as a total byte function, so short reads cannot occur; the short-read exit of
the source is therefore not reachable in the model). -/
def devRead (dev : Nat → Nat) (off count : Nat) : List Nat :=
  (List.range count).map fun i => dev (off + i)

/-- The per-extent loop of `readFileBytes`: `rem` is the number of bytes of
the destination buffer still to fill.  Each extent is read from
`startingBlock * blockSize` — the source does NOT add the start of the filesystem
offset here (ext4.go line 1679), unlike every other device read in the file.
Running out of extents with bytes still to fill panics in the source
(`panic("invalid size")`), modelled as `none`. -/
def readFileBytesLoop (blockSize : Nat) (dev : Nat → Nat) :
    List Extent → Nat → List Nat → List ReadOp → Option (List Nat) × List ReadOp
  | [], rem, acc, ops =>
      (if rem ≠ 0 then none else some acc, ops)
  | e :: rest, rem, acc, ops =>
      let start := e.startingBlock * blockSize
      let count := min (e.count * blockSize) rem
      let acc := acc ++ devRead dev start count
      let ops := ops ++ [⟨start, count⟩]
      let rem := rem - count
      if rem = 0 then (some acc, ops) else readFileBytesLoop blockSize dev rest rem acc ops

/-- `readFileBytes` from ext4.go over the flattened extent list: the
start offset of the filesystem and block size, the inode size, the extents, and
the device.  Returns the assembled file bytes (`none` for the
invalid-size panic) and the trace of device reads issued.  `fsStart` is a
parameter of the surrounding `FileSystem` but is never used by this function
in the source. -/
def readFileBytesGo (fsStart blockSize inodeSize : Nat) (extents : List Extent)
    (dev : Nat → Nat) : Option (List Nat) × List ReadOp :=
  readFileBytesLoop blockSize dev extents inodeSize [] []

/-! ## Helpers for the theorems -/

/-- Whether an `Except` value is a success. -/
def exceptOk {ε α : Type} : Except ε α → Bool
  | .ok _ => true
  | .error _ => false

/-- The error of a failed `Except` value, if any. -/
def exceptError {ε α : Type} : Except ε α → Option ε
  | .ok _ => none
  | .error e => some e

/-- The success value of an `Except` value, if any. -/
def exceptValue {ε α : Type} : Except ε α → Option α
  | .ok a => some a
  | .error _ => none

/-- Patch a list of (position, byte) pairs into a buffer. -/
def withBytes (b : List Nat) (ps : List (Nat × Nat)) : List Nat :=
  ps.foldl (fun b p => b.set p.1 p.2) b

/-! ## Concrete test buffers -/

/-- A 1024-byte superblock image: ext4 magic at 0x38, the metadata-checksums
ro-compat bit (0x400 at 0x64), checksum type 1 at 0x175, and — stored
little-endian at 0x3FC — the CRC-32C of the first 1020 bytes, 0x0CF0612B,
exactly as the spec demands of a valid superblock.  All other bytes are 0. -/
def sbBufC1 : List Nat :=
  withBytes (List.replicate 1024 0)
    [(0x38, 0x53), (0x39, 0xef), (0x65, 0x04), (0x175, 1),
     (0x3fc, 0x2b), (0x3fd, 0x61), (0x3fe, 0xf0), (0x3ff, 0x0c)]

/-- A 1024-byte superblock image with a valid magic and every other byte 0;
in particular the checksum-type byte at 0x175 is 0. -/
def sbBufC2 : List Nat :=
  withBytes (List.replicate 1024 0) [(0x38, 0x53), (0x39, 0xef)]

/-- A 1024-byte superblock image with a valid magic, checksum type 1, the
extended-attribute-inodes incompat bit (0x400 at 0x60) and nothing else: the
metadata-checksum-seed-in-superblock bit is clear, the uuid is all zero, and
the u32 at 0x270 is 0. -/
def sbBufC5 : List Nat :=
  withBytes (List.replicate 1024 0) [(0x38, 0x53), (0x39, 0xef), (0x61, 0x04), (0x175, 1)]

/-! ## Concrete fixture values for the claim theorems -/

/-- The superblock that `superblockFromBytes` decodes from `sbBufC5`. -/
def sbC5val : Superblock where
  inodeCount := 0
  blockCount := 0
  firstDataBlock := 0
  blockSize := 1024
  blocksPerGroup := 0
  inodesPerGroup := 0
  inodeSize := 0
  features := parseFeatureFlags 0 0x400 0
  uuid := List.replicate 16 0
  hashTreeSeed := [0, 0, 0, 0]
  groupDescriptorSize := 0
  checksumType := 1
  checksumSeed := 0

/-- A superblock value with metadata checksums enabled, zero per-image seed,
and 256-byte inodes; used to instantiate the group-descriptor and inode
theorems. -/
def sbMeta : Superblock where
  inodeCount := 0
  blockCount := 0
  firstDataBlock := 0
  blockSize := 1024
  blocksPerGroup := 0
  inodesPerGroup := 0
  inodeSize := 256
  features := parseFeatureFlags 0 0 0x400
  uuid := List.replicate 16 0
  hashTreeSeed := [0, 0, 0, 0]
  groupDescriptorSize := 32
  checksumType := 1
  checksumSeed := 0

/-- An all-zero 32-byte group-descriptor record (its stored checksum 0 equals
the CRC-32C chain over the all-zero content under a zero seed). -/
def gdBufC6 : List Nat := List.replicate 32 0

/-- A 256-byte inode image whose extent-tree header is valid and empty
(magic 0xF30A at 0x28, zero entries, max 4, depth 0) and whose stored
checksum (0) differs from the value recomputed under `sbMeta` for inode
number 2. -/
def inoBufC4 : List Nat :=
  withBytes (List.replicate 256 0) [(0x28, 0x0a), (0x29, 0xf3), (0x2c, 4)]

/-- The extent tree decoded from `inoBufC4`. -/
def extTreeC4 : ExtentTree where
  depth := 0
  entries := 0
  max := 4
  blockNumber := 0
  fileBlock := 0
  extents := []
  children := []

/-- The selection rule of the claim, verbatim: the first entry of the given list
all of whose bits are set in `mode` (0 when none matches). -/
def firstMatchAllBitsSet : List Nat → Nat → Nat
  | [], _ => 0
  | t :: rest, mode => if mode &&& t = t then t else firstMatchAllBitsSet rest mode

/-- The bytes of the name "foo". -/
def fooName : List Nat := [0x66, 0x6f, 0x6f]

/-- A one-extent flattened list: file block 0 held in disk block 1. -/
def extentsC3 : List Extent := [{ fileBlock := 0, startingBlock := 1, count := 1 }]

/-- A superblock value with the directory-entries-record-file-type incompat
bit set. -/
def sbDirFt : Superblock where
  inodeCount := 0
  blockCount := 0
  firstDataBlock := 0
  blockSize := 1024
  blocksPerGroup := 0
  inodesPerGroup := 0
  inodeSize := 256
  features := parseFeatureFlags 0 0x2 0
  uuid := List.replicate 16 0
  hashTreeSeed := [0, 0, 0, 0]
  groupDescriptorSize := 32
  checksumType := 1
  checksumSeed := 0

/-- A minimal 12-byte directory record with inode 1, record length 12, name
length 0 and file-type byte 0x08 — the first invalid code. -/
def deBufFt8 : List Nat := [1, 0, 0, 0, 12, 0, 0, 0x08, 0, 0, 0, 0]

/-- The same record with the 0xDE htree-tail tombstone file-type byte. -/
def deBufFtDE : List Nat := [1, 0, 0, 0, 12, 0, 0, 0xde, 0, 0, 0, 0]

/-- The same record with file-type byte 0x09. -/
def deBufFt9 : List Nat := [1, 0, 0, 0, 12, 0, 0, 0x09, 0, 0, 0, 0]

/-! ## Theorems

First, the evaluation combinator is the identity it claims to be. -/

/-- `forceNat` computes its continuation at its argument. -/
theorem forceNat_eq {α : Type} (n : Nat) (k : Nat → α) : forceNat n k = k n := by
  cases n <;> rfl

/-! ## Claim C1 -/

/-- C1 (code_bug evidence).  The claim — and the spec — demand that a
1024-byte superblock with the metadata-checksums bit set parse exactly when
CRC-32C of its first 1020 bytes equals the u32 stored at 0x3FC.  `sbBufC1`
satisfies that: its stored checksum is precisely the CRC-32C of its first
1020 bytes; yet `superblockFromBytes` rejects it with a checksum mismatch,
because the source computes the CRC over `b[0:0x3FE]` — 1022 bytes, which
include the two low bytes of the stored checksum itself (superblock.go line
422).  The companion encoder `toBytes` checksums the same 1022-byte range
while the slots at 0x3FC..0x3FE are still zero and then overwrites them, so
a written superblock does not re-validate either: the 0x3FE bound is a slip
for 0x3FC. -/
theorem C1_superblock_checksum_range_code_bug :
    exceptError (superblockFromBytes sbBufC1) = some .checksumMismatch ∧
    le32 sbBufC1 0x3fc = goCrc32Checksum (sliceBytes sbBufC1 0 0x3fc) ∧
    (parseFeatureFlags (le32 sbBufC1 0x5c) (le32 sbBufC1 0x60) (le32 sbBufC1 0x64)).metadataChecksums = true := by
  refine ⟨?_, ?_, ?_⟩ <;> decide

/-! ## Claim C2 -/

/-- C2 (counterexample).  The claim says a checksum-type byte of 0 is
accepted.  On a 1024-byte buffer whose only nonzero bytes are the magic, the
checksum-type byte at 0x175 is 0 and `superblockFromBytes` fails on exactly
that field (superblock.go lines 371–374 accept only the value 1). -/
theorem C2_checksum_type_zero_rejected :
    exceptError (superblockFromBytes sbBufC2) = some .badChecksumType ∧
    byteAt sbBufC2 0x175 = 0 := by
  refine ⟨?_, ?_⟩ <;> decide

/-- C2 (amended).  `superblockFromBytes` accepts only checksum-type byte
1: for every buffer whose byte at 0x175 differs from 1 — including 0 — it
fails. -/
theorem C2_checksum_type_only_one_accepted (b : List Nat)
    (h : byteAt b 0x175 ≠ 1) : exceptOk (superblockFromBytes b) = false := by
  unfold superblockFromBytes
  split
  · rfl
  · split
    · rfl
    · dsimp only
      split
      · rfl
      · next hc => exact absurd (Decidable.not_not.mp hc) h

/-- C2 (witness): the amended theorem applied at `sbBufC2`, whose
checksum-type byte is 0. -/
theorem C2_checksum_type_witness :
    byteAt sbBufC2 0x175 ≠ 1 ∧ exceptOk (superblockFromBytes sbBufC2) = false :=
  ⟨by decide, C2_checksum_type_only_one_accepted sbBufC2 (by decide)⟩

/-! ## Claim C5 -/

/-- C5 (counterexample).  The claim says that when the
metadata-checksum-seed-in-superblock bit is clear and extended-attribute-inodes
is set, the per-image seed equals `crc32c_update(^0, uuid)`.  `sbBufC5` is
such a superblock (seed-in-superblock clear, extended-attribute-inodes set,
all-zero uuid, u32 0 at 0x270): it parses, and its seed is the stored 0, not
`crc32c_update(0xFFFFFFFF, uuid)` — the source assigns the u32 at 0x270
unconditionally (superblock.go line 412) and has no uuid-derived fallback. -/
theorem C5_seed_no_uuid_fallback_counterexample :
    exceptValue (superblockFromBytes sbBufC5) = some sbC5val ∧
    sbC5val.features.metadataChecksumSeedInSuperblock = false ∧
    sbC5val.features.extendedAttributeInodes = true ∧
    sbC5val.checksumSeed ≠ crc32c_update 0xFFFFFFFF sbC5val.uuid := by
  refine ⟨?_, ?_, ?_, ?_⟩ <;> decide

/-- C5 (amended).  The per-image checksum seed of every successfully
parsed superblock is the u32 stored little-endian at offset 0x270, regardless
of the metadata-checksum-seed-in-superblock, metadata-checksums and
extended-attribute-inodes feature bits. -/
theorem C5_seed_always_stored (b : List Nat) (sb : Superblock)
    (h : superblockFromBytes b = .ok sb) : sb.checksumSeed = le32 b 0x270 := by
  unfold superblockFromBytes at h
  split at h
  · exact Except.noConfusion h
  · split at h
    · exact Except.noConfusion h
    · dsimp only at h
      split at h
      · exact Except.noConfusion h
      · split at h
        · exact Except.noConfusion h
        · injection h with h
          subst h
          rfl

/-- C5 (witness): the amended theorem applied at `sbBufC5`. -/
theorem C5_seed_always_stored_witness :
    superblockFromBytes sbBufC5 = Except.ok sbC5val ∧
    sbC5val.checksumSeed = le32 sbBufC5 0x270 :=
  ⟨by rfl, C5_seed_always_stored sbBufC5 sbC5val (by rfl)⟩

/-! ## Claim C6 -/

/-- C6.  For every group-descriptor record (32 or 64 bytes) decoded under
a superblock with the metadata-checksums feature set, decoding succeeds
exactly when the 16 bits stored at 0x1E equal the low 16 bits of the CRC-32C
chain that starts from the per-image seed, folds in the group number as a
little-endian u32, then the first 30 bytes of the record, then two zero bytes
in place of the checksum slot, and then the remaining record bytes after the
slot; a differing stored value is a checksum-mismatch error. -/
theorem C6_group_descriptor_checksum (b : List Nat) (sb : Superblock) (n : Nat)
    (hm : sb.features.metadataChecksums = true)
    (hl : b.length = 32 ∨ b.length = 64) :
    exceptOk (groupDescriptorFromBytes b sb n) = true ↔
      le16 b 0x1e =
        crc32c_update (crc32c_update (crc32c_update
          (crc32c_update_u32 sb.checksumSeed n) (sliceBytes b 0 0x1e)) [0, 0])
          (sliceFrom b 0x20) % 65536 := by
  have hsum : groupDescriptorChecksum b sb n =
      crc32c_update (crc32c_update (crc32c_update
        (crc32c_update_u32 sb.checksumSeed n) (sliceBytes b 0 0x1e)) [0, 0])
        (sliceFrom b 0x20) % 65536 := by
    unfold groupDescriptorChecksum
    rw [if_pos hm]
    dsimp only
    rcases hl with h | h
    · rw [h, if_neg (by omega)]
      have hnil : sliceFrom b 0x20 = [] := by
        unfold sliceFrom
        exact List.drop_eq_nil_of_le (by omega)
      rw [hnil]
      rfl
    · rw [h, if_pos (by omega)]
  unfold groupDescriptorFromBytes
  rw [← hsum]
  constructor
  · intro hok
    by_contra hne
    rw [if_pos ⟨Or.inl hm, hne⟩] at hok
    exact Bool.noConfusion hok
  · intro heq
    rw [if_neg]
    · rfl
    · intro hc
      exact hc.2 heq

/-- C6 (witness): the theorem applied to the all-zero 32-byte record
under `sbMeta`; both sides of the equivalence hold (the record parses and the
low 16 bits of the chain are 0). -/
theorem C6_group_descriptor_checksum_witness :
    sbMeta.features.metadataChecksums = true ∧
    (gdBufC6.length = 32 ∨ gdBufC6.length = 64) ∧
    (exceptOk (groupDescriptorFromBytes gdBufC6 sbMeta 0) = true ↔
      le16 gdBufC6 0x1e =
        crc32c_update (crc32c_update (crc32c_update
          (crc32c_update_u32 sbMeta.checksumSeed 0) (sliceBytes gdBufC6 0 0x1e)) [0, 0])
          (sliceFrom gdBufC6 0x20) % 65536) :=
  ⟨by decide, by decide,
    C6_group_descriptor_checksum gdBufC6 sbMeta 0 (by decide) (by decide)⟩

/-! ## Claim C4 -/

/-- C4.  Decoding an inode buffer under a superblock with the
metadata-checksums feature enabled, whose stored checksum differs from the
recomputed one, does not fail: whenever the in-inode extent tree parses, the
decoded inode is still returned.  (In the source the error return on mismatch
is commented out and only a warning is printed to stderr; the mismatch
hypothesis plays no role in the success of the decode, which is exactly the
claimed tolerance.) -/
theorem C4_inode_checksum_mismatch_tolerated (b : List Nat) (sb : Superblock) (n : Nat)
    (hm : sb.features.metadataChecksums = true)
    (hmis : inodeStoredChecksum b ≠ inodeChecksum b sb (inodeSeed sb n (le32 b 0x64)))
    (t : ExtentTree) (hext : parseExtentTree (sliceBytes b 0x28 0x64) 0 0 = .ok t) :
    exceptOk (inodeFromBytes b sb n) = true := by
  unfold inodeFromBytes
  dsimp only
  rw [hext]
  rfl

/-- C4 (witness): the theorem applied to `inoBufC4` under `sbMeta`. -/
theorem C4_inode_checksum_mismatch_witness :
    sbMeta.features.metadataChecksums = true ∧
    inodeStoredChecksum inoBufC4 ≠ inodeChecksum inoBufC4 sbMeta (inodeSeed sbMeta 2 (le32 inoBufC4 0x64)) ∧
    parseExtentTree (sliceBytes inoBufC4 0x28 0x64) 0 0 = .ok extTreeC4 ∧
    exceptOk (inodeFromBytes inoBufC4 sbMeta 2) = true :=
  ⟨by decide, by decide, by rfl,
    C4_inode_checksum_mismatch_tolerated inoBufC4 sbMeta 2 (by decide) (by decide)
      extTreeC4 (by rfl)⟩

/-! ## Claim C8 -/

/-- C8 (counterexample).  The claim orders the candidate file types as
FIFO 0x1000, CharDev 0x2000, Dir 0x4000, BlockDev 0x6000, …; under that order
a mode of 0x6000 (block device) would decode as 0x2000, because the CharDev
bits 0x2000 are contained in 0x6000.  The source checks BlockDev 0x6000
before CharDev 0x2000 and decodes 0x6000. -/
theorem C8_file_type_order_counterexample :
    parseFileType 0x6000 = 0x6000 ∧
    firstMatchAllBitsSet [0x1000, 0x2000, 0x4000, 0x6000, 0x8000, 0xA000, 0xC000] 0x6000 = 0x2000 := by
  refine ⟨?_, ?_⟩ <;> decide

/-- C8 (amended).  For every mode value, the decoded file type is the
first matching entry of the set, in the order of the source: FIFO 0x1000,
BlockDev 0x6000, CharDev 0x2000, Dir 0x4000, Regular 0x8000, Socket 0xC000,
Symlink 0xA000, where an entry matches when all of its bits are set in the
mode. -/
theorem C8_file_type_first_match (mode : Nat) :
    parseFileType mode =
      firstMatchAllBitsSet [0x1000, 0x6000, 0x2000, 0x4000, 0x8000, 0xC000, 0xA000] mode := by
  rfl

/-! ## Claim C9 -/

/-- The final masking of the directory hash yields an even value distinct
from the htree sentinel `ext4HtreeEOF32 << 1`. -/
theorem dirhashFinish_even_ne_sentinel (hash minor : Nat) :
    (dirhashFinish hash minor).1 % 2 = 0 ∧
    (dirhashFinish hash minor).1 ≠ ext4HtreeEOF32 <<< 1 := by
  unfold dirhashFinish
  dsimp only
  split
  · exact ⟨by decide, by decide⟩
  · next hne =>
    refine ⟨?_, hne⟩
    rw [← Nat.and_one_is_mod, Nat.and_assoc]
    have h1 : (4294967294 : Nat) &&& 1 = 0 := by decide
    rw [h1, Nat.and_zero]

/-- C9.  For every hash version in {legacy = 0, half-md4 = 1, tea = 2,
legacy-unsigned = 3, half-md4-unsigned = 4, tea-unsigned = 5}, every name and
every (at most 4-word) seed, the first component of the directory-name hash
has its low bit clear and differs from `ext4HtreeEOF32 << 1`. -/
theorem C9_dirhash_even_and_not_sentinel (name : List Nat) (version : Nat) (seed : List Nat)
    (hv : version ≤ 5) (hs : seed.length ≤ 4) :
    (ext4fsDirhash name version seed).1 % 2 = 0 ∧
    (ext4fsDirhash name version seed).1 ≠ ext4HtreeEOF32 <<< 1 := by
  unfold ext4fsDirhash
  interval_cases version <;>
    exact dirhashFinish_even_ne_sentinel _ _

/-- C9 (witness): the theorem applied to the TEA variant on "foo" with an
empty (all-default) seed. -/
theorem C9_dirhash_witness :
    (2 : Nat) ≤ 5 ∧ ([] : List Nat).length ≤ 4 ∧
    ((ext4fsDirhash fooName 2 []).1 % 2 = 0 ∧
      (ext4fsDirhash fooName 2 []).1 ≠ ext4HtreeEOF32 <<< 1) :=
  ⟨by decide, by decide, C9_dirhash_even_and_not_sentinel fooName 2 [] (by decide) (by decide)⟩

/-! ## Claim C10 -/

/-- C10.  For every open file and every offset, a `Seek` whose whence is
none of start (0), current (1) or end (2) returns position 0 with no error
and sets the offset of the file to 0, ignoring the offset argument. -/
theorem C10_seek_unknown_whence (inodeSize : Nat) (cur offset : Int) (whence : Nat)
    (h0 : whence ≠ 0) (h1 : whence ≠ 1) (h2 : whence ≠ 2) :
    fileSeek inodeSize cur offset whence = { ret := 0, newFileOffset := 0, isError := false } := by
  unfold fileSeek
  rw [if_neg h0, if_neg h2, if_neg h1]
  rfl

/-- C10 (witness): the theorem applied at whence 7 with a nonzero offset
and a nonzero current position. -/
theorem C10_seek_unknown_whence_witness :
    (7 : Nat) ≠ 0 ∧ (7 : Nat) ≠ 1 ∧ (7 : Nat) ≠ 2 ∧
    fileSeek 100 10 42 7 = { ret := 0, newFileOffset := 0, isError := false } :=
  ⟨by decide, by decide, by decide,
    C10_seek_unknown_whence 100 10 42 7 (by decide) (by decide) (by decide)⟩

/-! ## Claim C3 -/

/-- C3 (code_bug evidence).  The claim — and the general rule of the spec that
every on-disk address is translated through the caller-supplied start
offset — requires the read fetching extent content to be issued at
`start + startingBlock * blockSize`.  With a filesystem start of 1024, block
size 1024 and a single extent at disk block 1, `readFileBytes` issues its
one device read at offset 1024 = `startingBlock * blockSize`, not at
2048 = `start + startingBlock * blockSize`: the source (ext4.go line 1679)
omits `fs.start`, unlike every other device read in the file (e.g. the
extent-tree child read at extent.go line 123 and the inode-table read at
ext4.go line 1620). -/
theorem C3_read_offset_ignores_start_code_bug :
    (readFileBytesGo 1024 1024 512 extentsC3 (fun _ => 0)).2 = [{ offset := 1024, count := 512 }] ∧
    (1024 : Nat) ≠ 1024 + 1 * 1024 := by
  refine ⟨?_, ?_⟩ <;> decide

/-! ## Claim C7 -/

/-- C7 (code_bug evidence).  The claim says a 0xDE file-type byte skips
the record (true) and that every other byte outside 0..7 yields an error,
never an out-of-bounds access.  The guard in the source is
`int(ft) > len(filetypeMap)` — `ft > 8`, an off-by-one — so the byte 0x08
passes the guard and `filetypeMap[ft]` indexes past the 8-entry table: a Go
runtime panic on input reachable from a corrupt image.  Bytes 9..0xDD and
0xDF..0xFF do take the error return. -/
theorem C7_filetype_guard_off_by_one_code_bug :
    directoryEntryFromBytes sbDirFt deBufFt8 = .indexOutOfRange ∧
    directoryEntryFromBytes sbDirFt deBufFtDE = .skip ∧
    directoryEntryFromBytes sbDirFt deBufFt9 = .err "invalid filetype for directory entry" := by
  refine ⟨?_, ?_, ?_⟩ <;> decide

end Ext4
